import Mathlib

/-!
Shallow embedding of `MigrateRoute` from `src/mcrouter/lib/routes/MigrateRoute.h`.

The router holds two destination handles (`from_` and `to_`), a schedule
(`startTimeSec_`, `intervalSec_`, both `time_t`), and a time provider `tp_`
mapping a request to a timestamp.  `routeMask` computes a bitmask over
`kFromMask = 1` and `kToMask = 2`; `couldRouteTo` turns the mask into the
list of handles; `route` dispatches to one handle (mask `kFromMask` or
`kToMask`) or, in the `default` case, fans out to both via `fiber::forEach`
and folds the completions with the callback
`if (!reply || newReply.worseThan(reply.value())) reply = newReply;`.

Timestamps are modelled as `Int` (`time_t` is a signed integer type);
replies as an abstract type `α` with the consumed comparison
`wt : α → α → Bool`, where `wt x y` stands for `x.worseThan(y)`.
Destination handles are identified by the slot (`Dest.fromDest` /
`Dest.toDest`) they occupy in the router; `route` additionally returns the
list of slots whose handle received a `route` call, in launch order.
Completion order of the two concurrent sub-tasks is the explicit parameter
`toFirst` of `route`.
-/

/-- The two destination slots of the router: the `from_` handle and the `to_` handle. -/
inductive Dest : Type
  | fromDest : Dest
  | toDest : Dest
deriving DecidableEq, Repr

/-- The migration schedule held by the router: members `startTimeSec_` and
`intervalSec_` (both `time_t`). -/
structure Schedule : Type where
  startTimeSec : Int
  intervalSec : Int
deriving DecidableEq, Repr

/-- Operation class: which of the two `routeMask` overloads applies
(`DeleteLike<Operation>::Type` vs `OtherThanT(Operation, DeleteLike<>)`). -/
inductive OpClass : Type
  | deleteLike : OpClass
  | other : OpClass
deriving DecidableEq, Repr

/-- `static constexpr int kFromMask = 1`. -/
def kFromMask : Nat := 1

/-- `static constexpr int kToMask = 2`. -/
def kToMask : Nat := 2

/-- `MigrateRoute::routeMask`: both overloads, selected by `op`.
Delete-like: `curr < startTimeSec_` gives `kFromMask`;
`curr < startTimeSec_ + 2*intervalSec_` gives `kFromMask | kToMask`;
otherwise `kToMask`.  Other operations: `curr < startTimeSec_ + intervalSec_`
gives `kFromMask`, else `kToMask`.  `curr` is `tp_(req)`. -/
def routeMask {Req : Type} (tp : Req → Int) (s : Schedule) (op : OpClass) (req : Req) : Nat :=
  let curr := tp req
  match op with
  | OpClass.deleteLike =>
      if curr < s.startTimeSec then kFromMask
      else if curr < s.startTimeSec + 2 * s.intervalSec then kFromMask ||| kToMask
      else kToMask
  | OpClass.other =>
      if curr < s.startTimeSec + s.intervalSec then kFromMask
      else kToMask

/-- `MigrateRoute::couldRouteTo`: pushes `from_` when `mask & kFromMask`,
then `to_` when `mask & kToMask`; performs no dispatch. -/
def couldRouteTo {Req : Type} (tp : Req → Int) (s : Schedule) (op : OpClass) (req : Req) :
    List Dest :=
  let mask := routeMask tp s op req
  (if mask &&& kFromMask ≠ 0 then [Dest.fromDest] else []) ++
    (if mask &&& kToMask ≠ 0 then [Dest.toDest] else [])

/-- The `fiber::forEach` aggregation callback of `MigrateRoute::route`:
`if (!reply || newReply.worseThan(reply.value())) reply = std::move(newReply);`. -/
def mergeReplies {α : Type} (wt : α → α → Bool) (reply : Option α) (newReply : α) : Option α :=
  match reply with
  | none => some newReply
  | some r => if wt newReply r then some newReply else some r

/-- Reply reconciliation of the dual-dispatch path: the fold of the
`forEach` callback over the two completions, in completion order
(`first` completed first). -/
def reconcile {α : Type} (wt : α → α → Bool) (first second : α) : Option α :=
  [first, second].foldl (mergeReplies wt) none

/-- `MigrateRoute::route`: computes `mask`, dispatches to `from_` alone on
`kFromMask`, to `to_` alone on `kToMask`, and otherwise (the `default`
case) runs both sub-tasks, reconciling the two replies in completion
order (`toFirst` says whether `to_`'s reply completed first).  Returns the
reply (`none` would mean `reply.value()` on an empty `folly::Optional`)
together with the slots that received a `route` call, in launch order
(`fs[0]` is `from_`'s sub-task, `fs[1]` is `to_`'s). -/
def route {Req α : Type} (wt : α → α → Bool) (tp : Req → Int) (s : Schedule) (op : OpClass)
    (fromRoute toRoute : Req → α) (req : Req) (toFirst : Bool) : Option α × List Dest :=
  let mask := routeMask tp s op req
  if mask = kFromMask then (some (fromRoute req), [Dest.fromDest])
  else if mask = kToMask then (some (toRoute req), [Dest.toDest])
  else if toFirst then (reconcile wt (toRoute req) (fromRoute req), [Dest.fromDest, Dest.toDest])
  else (reconcile wt (fromRoute req) (toRoute req), [Dest.fromDest, Dest.toDest])

/-- Comparison used in concrete counterexamples: a `Nat` reply `a` is worse
than `b` exactly when `a < b` (smaller value = worse reply). -/
def wtNatLt (a b : Nat) : Bool := a < b

/-- Unfolding of the two-completion fold: the second completion replaces
the incumbent exactly when it is worse. -/
theorem reconcile_eq {α : Type} (wt : α → α → Bool) (a b : α) :
    reconcile wt a b = some (if wt b a then b else a) := by
  simp only [reconcile, List.foldl, mergeReplies]
  split <;> rfl

/-- The mask is always `kFromMask`, `kToMask`, or both bits. -/
theorem routeMask_cases {Req : Type} (tp : Req → Int) (s : Schedule) (op : OpClass) (req : Req) :
    routeMask tp s op req = kFromMask ∨ routeMask tp s op req = kToMask ∨
      routeMask tp s op req = (kFromMask ||| kToMask) := by
  unfold routeMask
  cases op <;> dsimp only <;> split
  · exact Or.inl rfl
  · split
    · exact Or.inr (Or.inr rfl)
    · exact Or.inr (Or.inl rfl)
  · exact Or.inl rfl
  · exact Or.inr (Or.inl rfl)

example : routeMask (fun _ => (1050 : Int)) ⟨1000, 100⟩ OpClass.deleteLike () = 3 := by decide
example : routeMask (fun _ => (1050 : Int)) ⟨1000, 100⟩ OpClass.other () = 1 := by decide
example : routeMask (fun _ => (1150 : Int)) ⟨1000, 100⟩ OpClass.other () = 2 := by decide
example : routeMask (fun _ => (1300 : Int)) ⟨1000, 100⟩ OpClass.deleteLike () = 2 := by decide
example : routeMask (fun _ => (500 : Int)) ⟨1000, 100⟩ OpClass.deleteLike () = 1 := by decide
example :
    (route wtNatLt (fun _ => (1050 : Int)) ⟨1000, 100⟩ OpClass.deleteLike
      (fun _ => 0) (fun _ => 1) () false).1 = some 0 := by decide

/-!
Configuration-driven construction (`MigrateRoute(RouteHandleFactory&, const
folly::dynamic&, TimeProvider)`).  `folly::dynamic` is modelled by `Dyn`;
`checkLogic(cond, msg)` throws a recoverable logic error when `cond` is
false, modelled by `Except String`.  The constructor body is the sequence
of `checkLogic` calls, the default `intervalSec_(3600)`, the field
extraction, and the delegation of the `from` / `to` sub-configurations to
the external factory (kept as the raw sub-values here, since the factory
is an external collaborator).
-/

/-- Model of `folly::dynamic` values (doubles carry no payload: only
`isInt()` is consumed of them). -/
inductive Dyn : Type
  | dNull : Dyn
  | dBool : Bool → Dyn
  | dInt : Int → Dyn
  | dDouble : Dyn
  | dStr : String → Dyn
  | dArr : List Dyn → Dyn
  | dObj : List (String × Dyn) → Dyn

/-- `folly::dynamic::isObject()`. -/
def Dyn.isObject : Dyn → Bool
  | Dyn.dObj _ => true
  | _ => false

/-- `folly::dynamic::isInt()`. -/
def Dyn.isInt : Dyn → Bool
  | Dyn.dInt _ => true
  | _ => false

/-- Field access `json[k]` on an object, `none` when the key is absent or
the value is not an object. -/
def Dyn.getField : Dyn → String → Option Dyn
  | Dyn.dObj fs, k => fs.lookup k
  | _, _ => none

/-- `folly::dynamic::count(k)`: 1 when the key is present, else 0. -/
def Dyn.countKey (d : Dyn) (k : String) : Nat :=
  match d.getField k with
  | some _ => 1
  | none => 0

/-- `folly::dynamic::asInt()`, only ever called after an `isInt()` check. -/
def Dyn.asInt : Dyn → Int
  | Dyn.dInt i => i
  | _ => 0

/-- `checkLogic(cond, msg)`: throws a recoverable logic error carrying
`msg` when `cond` fails. -/
def checkLogic (cond : Bool) (msg : String) : Except String Unit :=
  if cond then Except.ok () else Except.error msg

/-- The data the config constructor extracts before handing `from` / `to`
to the external factory. -/
structure MigrateConfig : Type where
  startTimeSec : Int
  intervalSec : Int
  fromCfg : Dyn
  toCfg : Dyn

/-- The configuration constructor of `MigrateRoute`: member initializer
`intervalSec_(3600)`, then the four `checkLogic` checks, the `start_time`
extraction, the optional `interval` override with its own `isInt` check,
and the `from` / `to` sub-configurations for the factory. -/
def parseMigrateRoute (json : Dyn) : Except String MigrateConfig := do
  checkLogic json.isObject "MigrateRoute should be object"
  checkLogic ((json.countKey "start_time" != 0) && (json.getField "start_time").any Dyn.isInt)
    "MigrateRoute has no/invalid start_time"
  checkLogic (json.countKey "from" != 0) "MigrateRoute has no 'from' route"
  checkLogic (json.countKey "to" != 0) "MigrateRoute has no 'to' route"
  let startTimeSec := ((json.getField "start_time").getD Dyn.dNull).asInt
  let intervalSec ←
    match json.getField "interval" with
    | none => pure (3600 : Int)
    | some v => do
        checkLogic v.isInt "MigrateRoute interval is not integer"
        pure v.asInt
  pure { startTimeSec := startTimeSec, intervalSec := intervalSec,
         fromCfg := (json.getField "from").getD Dyn.dNull,
         toCfg := (json.getField "to").getD Dyn.dNull }

/-- Whether an `Except` computation succeeded. -/
def exceptOk {ε α : Type} : Except ε α → Bool
  | Except.ok _ => true
  | Except.error _ => false

/-- A well-formed configuration with `interval` absent, used as a witness. -/
def sampleConfig : Dyn :=
  Dyn.dObj [("start_time", Dyn.dInt 1000), ("from", Dyn.dStr "A"), ("to", Dyn.dStr "B")]

/-- C1 counterexample: with from-reply `0` strictly worse than to-reply `1`
(no tie in either direction), dual dispatch at `now = 1050` under schedule
`{1000, 100}` returns `0` — the worse reply — not the not-worse one. -/
theorem migrate_C1_cex :
    wtNatLt 0 1 = true ∧ wtNatLt 1 0 = false ∧
      (route wtNatLt (fun _ => (1050 : Int)) ⟨1000, 100⟩ OpClass.deleteLike
        (fun _ => 0) (fun _ => 1) () false).1 = some 0 := by decide

/-- C1 (amended): reply reconciliation of the dual-dispatch path returns
whichever of the two replies is worse under `worseThan` — the
second-completed reply replaces the incumbent exactly when it is worse —
and when the second is not worse (ties included) the first-completed
reply is kept. -/
theorem migrate_C1_reconcile_worse {α : Type} (wt : α → α → Bool) (a b : α) :
    (wt b a = true → reconcile wt a b = some b)
    ∧ (wt b a = false → reconcile wt a b = some a) := by
  refine ⟨fun h => ?_, fun h => ?_⟩ <;> rw [reconcile_eq, h] <;> rfl

/-- C1 witness at concrete replies. -/
theorem migrate_C1_witness :
    wtNatLt 0 1 = true ∧ reconcile wtNatLt 1 0 = some 0 :=
  ⟨by decide, (migrate_C1_reconcile_worse wtNatLt 1 0).1 (by decide)⟩

/-- C2: at `startTime = 1000`, `interval = 100`, `now = 1050`, a delete-like
operation is dispatched to both destinations, each exactly once, and — for
either completion order — the reply is the worse of the two (here the pair
is not tied, so "the worse" is well defined). -/
theorem migrate_C2_scenario {α : Type} (wt : α → α → Bool) (a b : α) (ord : Bool)
    (h : (wt a b = true ∧ wt b a = false) ∨ (wt b a = true ∧ wt a b = false)) :
    (route wt (fun _ => (1050 : Int)) ⟨1000, 100⟩ OpClass.deleteLike
        (fun _ => a) (fun _ => b) () ord).2 = [Dest.fromDest, Dest.toDest]
    ∧ ((route wt (fun _ => (1050 : Int)) ⟨1000, 100⟩ OpClass.deleteLike
        (fun _ => a) (fun _ => b) () ord).2).count Dest.fromDest = 1
    ∧ ((route wt (fun _ => (1050 : Int)) ⟨1000, 100⟩ OpClass.deleteLike
        (fun _ => a) (fun _ => b) () ord).2).count Dest.toDest = 1
    ∧ (route wt (fun _ => (1050 : Int)) ⟨1000, 100⟩ OpClass.deleteLike
        (fun _ => a) (fun _ => b) () ord).1 = some (if wt b a = true then b else a) := by
  have hmask : routeMask (fun _ => (1050 : Int)) ⟨1000, 100⟩ OpClass.deleteLike () = 3 := by
    decide
  simp only [route, hmask, kFromMask, kToMask, reconcile_eq]
  cases ord <;>
    rcases h with ⟨h1, h2⟩ | ⟨h1, h2⟩ <;>
      simp [h1, h2]

/-- C2 witness at concrete replies and the from-first completion order. -/
theorem migrate_C2_witness :
    (route wtNatLt (fun _ => (1050 : Int)) ⟨1000, 100⟩ OpClass.deleteLike
        (fun _ => 0) (fun _ => 1) () false).1 = some (if wtNatLt 1 0 = true then 1 else 0) :=
  (migrate_C2_scenario wtNatLt 0 1 false (Or.inl ⟨by decide, by decide⟩)).2.2.2

/-- C3 counterexample: with `startTime = 0` and `interval = -5`, at
`now = -3` we have `now ≥ startTime + 2·interval`, yet the delete-like
decision is not TO (the `now < startTime` branch fires first and yields
FROM). -/
theorem migrate_C3_cex :
    (0 + 2 * (-5 : Int) ≤ -3) ∧
      routeMask (fun _ => (-3 : Int)) ⟨0, -5⟩ OpClass.deleteLike () ≠ kToMask := by decide

/-- C3 (amended): for delete-like operations the decision is FROM when
`now < startTime`, BOTH when `startTime ≤ now < startTime + 2·interval`,
and TO when `now ≥ startTime + 2·interval` and additionally
`now ≥ startTime` (for nonnegative intervals the extra conjunct is
vacuous; for negative intervals the regions would otherwise overlap). -/
theorem migrate_C3_deleteLike_phases {Req : Type} (tp : Req → Int) (s : Schedule) (req : Req) :
    (tp req < s.startTimeSec → routeMask tp s OpClass.deleteLike req = kFromMask)
    ∧ (s.startTimeSec ≤ tp req → tp req < s.startTimeSec + 2 * s.intervalSec →
        routeMask tp s OpClass.deleteLike req = (kFromMask ||| kToMask))
    ∧ (s.startTimeSec ≤ tp req → s.startTimeSec + 2 * s.intervalSec ≤ tp req →
        routeMask tp s OpClass.deleteLike req = kToMask) := by
  unfold routeMask
  dsimp only
  refine ⟨fun h => ?_, fun h1 h2 => ?_, fun h1 h2 => ?_⟩
  · rw [if_pos h]
  · rw [if_neg (not_lt.mpr h1), if_pos h2]
  · rw [if_neg (not_lt.mpr h1), if_neg (not_lt.mpr h2)]

/-- C3 witness inside the BOTH window. -/
theorem migrate_C3_witness :
    routeMask (fun _ => (1050 : Int)) ⟨1000, 100⟩ OpClass.deleteLike () = (kFromMask ||| kToMask) :=
  (migrate_C3_deleteLike_phases (fun _ => (1050 : Int)) ⟨1000, 100⟩ ()).2.1
    (by decide) (by decide)

/-- C4: for non-delete-like operations the decision is FROM exactly when
`now < startTime + interval` and TO exactly when
`now ≥ startTime + interval`, for every schedule. -/
theorem migrate_C4_other_threshold {Req : Type} (tp : Req → Int) (s : Schedule) (req : Req) :
    (tp req < s.startTimeSec + s.intervalSec → routeMask tp s OpClass.other req = kFromMask)
    ∧ (s.startTimeSec + s.intervalSec ≤ tp req → routeMask tp s OpClass.other req = kToMask) := by
  unfold routeMask
  dsimp only
  exact ⟨fun h => if_pos h, fun h => if_neg (not_lt.mpr h)⟩

/-- C4 witness on both sides of the threshold. -/
theorem migrate_C4_witness :
    routeMask (fun _ => (1050 : Int)) ⟨1000, 100⟩ OpClass.other () = kFromMask ∧
      routeMask (fun _ => (1150 : Int)) ⟨1000, 100⟩ OpClass.other () = kToMask :=
  ⟨(migrate_C4_other_threshold (fun _ => (1050 : Int)) ⟨1000, 100⟩ ()).1 (by decide),
   (migrate_C4_other_threshold (fun _ => (1150 : Int)) ⟨1000, 100⟩ ()).2 (by decide)⟩

/-- C5: `couldRouteTo` returns exactly the slots whose handles `route`
dispatches to, for every request, operation class, time provider, reply
comparison, and completion order — and when both apply, in the fixed
order `[from, to]`.  `couldRouteTo` itself takes no destination handlers,
so it performs no dispatch. -/
theorem migrate_C5_introspection {Req α : Type} (wt : α → α → Bool) (tp : Req → Int)
    (s : Schedule) (op : OpClass) (fromRoute toRoute : Req → α) (req : Req) (toFirst : Bool) :
    couldRouteTo tp s op req = (route wt tp s op fromRoute toRoute req toFirst).2
    ∧ (routeMask tp s op req = (kFromMask ||| kToMask) →
        couldRouteTo tp s op req = [Dest.fromDest, Dest.toDest]) := by
  rcases routeMask_cases tp s op req with h | h | h <;>
    refine ⟨?_, fun hboth => ?_⟩ <;>
      cases toFirst <;>
        simp_all [couldRouteTo, route, kFromMask, kToMask]

/-- C5 witness: inside the BOTH window the two lists coincide and are
`[from, to]`. -/
theorem migrate_C5_witness :
    couldRouteTo (fun _ => (1050 : Int)) ⟨1000, 100⟩ OpClass.deleteLike () =
      [Dest.fromDest, Dest.toDest] :=
  (migrate_C5_introspection wtNatLt (fun _ => (1050 : Int)) ⟨1000, 100⟩ OpClass.deleteLike
      (fun _ => 0) (fun _ => 1) () false).2 (by decide)

/-- C7: per incoming operation, a slot selected by the mask receives
exactly one `route` call and an unselected slot receives none, in the
single-destination paths and the dual-dispatch path alike. -/
theorem migrate_C7_exactly_once {Req α : Type} (wt : α → α → Bool) (tp : Req → Int)
    (s : Schedule) (op : OpClass) (fromRoute toRoute : Req → α) (req : Req) (toFirst : Bool) :
    ((route wt tp s op fromRoute toRoute req toFirst).2.count Dest.fromDest
        = if routeMask tp s op req &&& kFromMask ≠ 0 then 1 else 0)
    ∧ ((route wt tp s op fromRoute toRoute req toFirst).2.count Dest.toDest
        = if routeMask tp s op req &&& kToMask ≠ 0 then 1 else 0) := by
  rcases routeMask_cases tp s op req with h | h | h <;>
    cases toFirst <;>
      simp_all [route, kFromMask, kToMask]

/-- C8 counterexample: with `startTime = 0` and `interval = -1`, at
`now = -1 < startTime` a non-delete-like operation is routed TO, not FROM
(`now < startTime + interval` fails since `startTime + interval = -1`). -/
theorem migrate_C8_cex :
    ((-1 : Int) < 0) ∧
      routeMask (fun _ => (-1 : Int)) ⟨0, -1⟩ OpClass.other () = kToMask := by decide

/-- C8 (amended): whenever `now < startTime` and the interval is
nonnegative, the decision is FROM for both operation classes (delete-like
operations need no condition on the interval). -/
theorem migrate_C8_before_start {Req : Type} (tp : Req → Int) (s : Schedule) (req : Req)
    (op : OpClass) (hI : 0 ≤ s.intervalSec) (h : tp req < s.startTimeSec) :
    routeMask tp s op req = kFromMask := by
  unfold routeMask
  cases op <;> dsimp only
  · rw [if_pos h]
  · rw [if_pos (lt_of_lt_of_le h (by linarith))]

/-- C8 witness before the start of the migration. -/
theorem migrate_C8_witness :
    routeMask (fun _ => (500 : Int)) ⟨1000, 100⟩ OpClass.other () = kFromMask :=
  migrate_C8_before_start (fun _ => (500 : Int)) ⟨1000, 100⟩ () OpClass.other
    (by decide) (by decide)

/-- C9: when the two replies are not tied under `worseThan` and the
comparison is asymmetric on them (as a total order is), reconciliation is
commutative and the whole `route` result is identical for either
completion order of the two sub-tasks. -/
theorem migrate_C9_order_independent {Req α : Type} (wt : α → α → Bool) (tp : Req → Int)
    (s : Schedule) (op : OpClass) (fromRoute toRoute : Req → α) (req : Req)
    (hnt : wt (fromRoute req) (toRoute req) = true ∨ wt (toRoute req) (fromRoute req) = true)
    (hasym : ¬(wt (fromRoute req) (toRoute req) = true ∧
        wt (toRoute req) (fromRoute req) = true)) :
    reconcile wt (fromRoute req) (toRoute req) = reconcile wt (toRoute req) (fromRoute req)
    ∧ route wt tp s op fromRoute toRoute req true = route wt tp s op fromRoute toRoute req false := by
  have hrec :
      reconcile wt (fromRoute req) (toRoute req) = reconcile wt (toRoute req) (fromRoute req) := by
    rw [reconcile_eq, reconcile_eq]
    rcases hnt with h | h
    · have h2 : wt (toRoute req) (fromRoute req) = false := by
        cases hw : wt (toRoute req) (fromRoute req)
        · rfl
        · exact absurd ⟨h, hw⟩ hasym
      rw [h, h2]
      simp
    · have h2 : wt (fromRoute req) (toRoute req) = false := by
        cases hw : wt (fromRoute req) (toRoute req)
        · rfl
        · exact absurd ⟨hw, h⟩ hasym
      rw [h, h2]
      simp
  refine ⟨hrec, ?_⟩
  rcases routeMask_cases tp s op req with h | h | h <;>
    simp_all [route, kFromMask, kToMask]

/-- C9 witness at concrete non-tied replies. -/
theorem migrate_C9_witness :
    reconcile wtNatLt 0 1 = reconcile wtNatLt 1 0 :=
  (migrate_C9_order_independent wtNatLt (fun _ => (1050 : Int)) ⟨1000, 100⟩ OpClass.deleteLike
      (fun _ => 0) (fun _ => 1) () (Or.inl (by decide)) (by decide)).1

/-- C10: the mask is always FROM, TO, or BOTH; `couldRouteTo` always
returns one or two handles; `route` always dispatches to at least one
destination and always produces a reply. -/
theorem migrate_C10_nonempty {Req α : Type} (wt : α → α → Bool) (tp : Req → Int)
    (s : Schedule) (op : OpClass) (fromRoute toRoute : Req → α) (req : Req) (toFirst : Bool) :
    (routeMask tp s op req = kFromMask ∨ routeMask tp s op req = kToMask ∨
        routeMask tp s op req = (kFromMask ||| kToMask))
    ∧ ((couldRouteTo tp s op req).length = 1 ∨ (couldRouteTo tp s op req).length = 2)
    ∧ (route wt tp s op fromRoute toRoute req toFirst).2 ≠ []
    ∧ ((route wt tp s op fromRoute toRoute req toFirst).1).isSome = true := by
  refine ⟨routeMask_cases tp s op req, ?_⟩
  rcases routeMask_cases tp s op req with h | h | h <;>
    cases toFirst <;>
      simp_all [couldRouteTo, route, kFromMask, kToMask, reconcile_eq]

/-- `count(k) != 0` is key presence. -/
theorem countKey_bne (d : Dyn) (k : String) : (d.countKey k != 0) = (d.getField k).isSome := by
  unfold Dyn.countKey
  cases d.getField k <;> rfl

/-- Presence conjoined with a field predicate collapses to the predicate. -/
theorem isSome_and_any (o : Option Dyn) (p : Dyn → Bool) : (o.isSome && o.any p) = o.any p := by
  cases o <;> rfl

/-- Sequencing a `checkLogic` is an early-error `if`. -/
theorem bind_checkLogic (c : Bool) (m : String) {α : Type} (k : Unit → Except String α) :
    (checkLogic c m >>= k) = if c then k () else Except.error m := by
  unfold checkLogic
  cases c <;> rfl


/-- `pure` in the `Except` monad is `Except.ok`. -/
theorem pure_ok {α : Type} (x : α) : (pure x : Except String α) = Except.ok x := rfl

/-- Sequencing after a success. -/
theorem ok_bind {α β : Type} (x : α) (k : α → Except String β) :
    (Except.ok x >>= k) = k x := rfl

/-- Sequencing after an error short-circuits. -/
theorem error_bind {α β : Type} (e : String) (k : α → Except String β) :
    ((Except.error e : Except String α) >>= k) = Except.error e := rfl

/-- C6: configuration-driven construction succeeds exactly when the value
is an object with an integer `start_time`, present `from` and `to`, and an
`interval` that is absent or an integer; every other shape yields a
recoverable error value.  When `interval` is absent the parsed interval is
the default 3600. -/
theorem migrate_C6_config (j : Dyn) :
    (exceptOk (parseMigrateRoute j) = true ↔
      (j.isObject = true ∧ (j.getField "start_time").any Dyn.isInt = true
        ∧ (j.getField "from").isSome = true ∧ (j.getField "to").isSome = true
        ∧ ((j.getField "interval").isNone = true ∨
            (j.getField "interval").any Dyn.isInt = true)))
    ∧ (∀ cfg, parseMigrateRoute j = Except.ok cfg → (j.getField "interval").isNone = true →
        cfg.intervalSec = 3600) := by
  rcases hI : j.getField "interval" with _ | v
  · simp only [parseMigrateRoute, hI, bind_checkLogic, countKey_bne, isSome_and_any]
    constructor
    · split_ifs with h1 h2 h3 h4 <;>
        simp_all [exceptOk, pure_ok, ok_bind, Option.isSome_iff_exists]
    · intro cfg hcfg _
      split_ifs at hcfg
      all_goals
        first
          | exact Except.noConfusion hcfg
          | · rw [pure_ok, ok_bind, pure_ok] at hcfg
              injection hcfg with h
              rw [← h]
  · simp only [parseMigrateRoute, hI, bind_checkLogic, countKey_bne, isSome_and_any]
    refine ⟨?_, fun cfg _ hnone => by simp at hnone⟩
    split_ifs with h1 h2 h3 h4
    · cases hv : v.isInt <;>
        simp_all [exceptOk, pure_ok, ok_bind, error_bind, bind_checkLogic,
          Option.isSome_iff_exists]
    all_goals simp_all [exceptOk, Option.isSome_iff_exists]

/-- C6 witness: a minimal well-formed configuration without `interval`
parses successfully with the default interval 3600, through the
characterization. -/
theorem migrate_C6_witness :
    exceptOk (parseMigrateRoute sampleConfig) = true ∧
      (∀ cfg, parseMigrateRoute sampleConfig = Except.ok cfg → cfg.intervalSec = 3600) := by
  have h := migrate_C6_config sampleConfig
  exact ⟨h.1.mpr (by decide), fun cfg hcfg => h.2 cfg hcfg (by decide)⟩
